import Mathlib

/-!
Verification of the DoctorMate AI service layer (shallow embedding).

The Python sources embedded here:
  app/services/doctormate_api_service.py  (SpecialtyMapper, DoctorMateAPIService)
  app/services/skin_service.py            (SkinAnalysisService)
  app/services/symptoms_service.py        (SymptomsAnalysisService)
  app/main.py                             (route layer, header handling)
  app/models.py                           (pydantic response models)

Strings are modelled as Lean strings; the Python string operations used by
the code (lower, split, substring containment, startswith, replace) are
given explicit executable definitions over character lists.
-/

namespace DoctorMate

/-- Python `needle in hay` begins with a check at each position; this is the
position-0 check: `startsWithL n h = true` iff `n` is an initial segment of `h`.
Also models Python `str.startswith`. -/
def startsWithL : List Char → List Char → Bool
  | [], _ => true
  | _ :: _, [] => false
  | a :: as, b :: bs => a == b && startsWithL as bs

/-- Python substring containment `needle in hay` over character lists. -/
def containsSub (needle : List Char) : List Char → Bool
  | [] => startsWithL needle []
  | c :: rest => startsWithL needle (c :: rest) || containsSub needle rest

/-- Python `s.split(sep)` for a single-character separator, over character
lists; `splitChar sep s` never returns an empty list. -/
def splitChar (sep : Char) : List Char → List (List Char)
  | [] => [[]]
  | c :: rest =>
    let r := splitChar sep rest
    if c == sep then [] :: r
    else
      match r with
      | [] => [[c]]
      | g :: gs => (c :: g) :: gs

/-- Left-to-right scan replacing each non-overlapping occurrence of `needle`.
Structural recursion on a fuel argument; one unit of fuel is spent per
position examined, and at least one character is consumed per step, so
`fuel = s.length` always suffices and the `0` branch is unreachable then. -/
def replaceAllAux (needle repl : List Char) : Nat → List Char → List Char
  | _, [] => []
  | 0, s => s
  | fuel + 1, c :: rest =>
    if startsWithL needle (c :: rest) then
      repl ++ replaceAllAux needle repl fuel ((c :: rest).drop needle.length)
    else
      c :: replaceAllAux needle repl fuel rest

/-- Python `s.replace(old, new)`: replaces every non-overlapping occurrence of
`needle`, scanning left to right. The program only calls this with the
non-empty needle "Bearer ", so the empty-needle case (where Python would
interleave `repl` at every position) is modelled as the identity. -/
def replaceAll (needle repl : List Char) (s : List Char) : List Char :=
  if needle.isEmpty then s else replaceAllAux needle repl s.length s

/-- Python `s.lower()` (the program only feeds it ASCII keyword text). -/
def pyLower (s : String) : String := ⟨s.data.map Char.toLower⟩

/-- Python string replace lifted to `String`. -/
def replaceAllStr (s needle repl : String) : String :=
  ⟨replaceAll needle.data repl.data s.data⟩

/-! ## SpecialtyMapper (doctormate_api_service.py) -/

/-- The fixed Dermatology specialty identifier. -/
def dermatologyId : String := "b2222222-b2b2-b2b2-b2b2-b2b2b2b2b2b2"

/-- The fixed Cardiology specialty identifier. -/
def cardiologyId : String := "a1111111-a1a1-a1a1-a1a1-a1a1a1a1a1a1"

/-- The fixed Neurology specialty identifier. -/
def neurologyId : String := "5b05c49a-288f-48f3-b684-6d505c58d276"

/-- The fixed Pediatrics specialty identifier. -/
def pediatricsId : String := "bb79c512-c722-4e5a-a1fc-c9699359b636"

/-- The fixed General specialty identifier (fallback of the symptom mapper). -/
def generalId : String := "fa12fdd9-0a6a-4330-814c-17fd31fbd637"

/-- `SpecialtyMapper.SKIN_LESION_MAP`, in declaration order (Python dicts
preserve insertion order; keys are unique). -/
def SKIN_LESION_MAP : List (String × String) :=
  [ ("mel", dermatologyId),
    ("bcc", dermatologyId),
    ("akiec", dermatologyId),
    ("bkl", dermatologyId),
    ("df", dermatologyId),
    ("nv", dermatologyId),
    ("vasc", dermatologyId) ]

/-- Python `dict.get(key, default)` over an association list. -/
def dictGetD (m : List (String × String)) (key dflt : String) : String :=
  match m.find? (fun p => p.1 == key) with
  | some p => p.2
  | none => dflt

/-- `SpecialtyMapper.get_specialty_for_skin_lesion`. -/
def get_specialty_for_skin_lesion (diagnosis_code : String) : String :=
  dictGetD SKIN_LESION_MAP diagnosis_code dermatologyId

/-- `SpecialtyMapper.SYMPTOM_KEYWORDS_MAP` in declaration order:
Cardiology, Neurology, Dermatology, Pediatrics. -/
def SYMPTOM_KEYWORDS_MAP : List (String × String) :=
  [ ("heart|chest pain|palpitation|cardiac", cardiologyId),
    ("brain|headache|seizure|neurological|nerve", neurologyId),
    ("skin|rash|acne|eczema|dermatological", dermatologyId),
    ("child|infant|pediatric|baby", pediatricsId) ]

/-- The inner loop of `get_specialty_for_symptoms`: the Python code returns
`specialty_id` on the first keyword of the group found in `combined`; the
value returned does not depend on which keyword of the group matched. -/
def groupMatches (keywords : String) (combined : List Char) : Bool :=
  (splitChar '|' keywords.data).any (fun kw => containsSub kw combined)

/-- The scan over `SYMPTOM_KEYWORDS_MAP` in declaration order with the
General fallback. -/
def firstMatch : List (String × String) → List Char → String
  | [], _ => generalId
  | (kws, sid) :: rest, combined =>
    if groupMatches kws combined then sid else firstMatch rest combined

/-- `SpecialtyMapper.get_specialty_for_symptoms`: lower-cases both strings,
joins with a single space, scans the keyword table in declaration order. -/
def get_specialty_for_symptoms (symptoms diagnosis : String) : String :=
  let combined := pyLower symptoms ++ " " ++ pyLower diagnosis
  firstMatch SYMPTOM_KEYWORDS_MAP combined.data

/-- All keywords of all groups, in scan order. -/
def allKeywords : List (List Char) :=
  SYMPTOM_KEYWORDS_MAP.flatMap (fun p => splitChar '|' p.1.data)

/-! ## JSON values (the shapes `response.json()` and the LLM reply produce) -/

/-- A JSON value; numbers are irrelevant to every claim and carried as `Int`. -/
inductive JValue where
  | null : JValue
  | str : String → JValue
  | num : Int → JValue
  | arr : List JValue → JValue
  | obj : List (String × JValue) → JValue

/-- Python `d[k]` / `d.get(k)` on a JSON object: first binding of `k`
(parsed JSON objects have unique keys). Returns `none` when `j` is not an
object or lacks the key. -/
def jget (j : JValue) (k : String) : Option JValue :=
  match j with
  | .obj fields =>
    match fields.find? (fun p => p.1 == k) with
    | some p => some p.2
    | none => none
  | _ => none

/-- Python `d.get(k, dflt)`. -/
def jgetD (j : JValue) (k : String) (dflt : JValue) : JValue :=
  (jget j k).getD dflt

/-- Python `d[k] = v` on a JSON object: replace the binding if the key is
present, append it otherwise. -/
def jset (fields : List (String × JValue)) (k : String) (v : JValue) :
    List (String × JValue) :=
  if (fields.find? (fun p => p.1 == k)).isSome then
    fields.map (fun p => if p.1 == k then (k, v) else p)
  else
    fields ++ [(k, v)]

/-- The keys of a JSON object (empty for non-objects). -/
def jKeys : JValue → List String
  | .obj fields => fields.map (·.1)
  | _ => []

/-! ## DoctorMateAPIService (doctormate_api_service.py)

Each method performs exactly one HTTP GET; its outcome is the input of the
embedded response handling. `response (status) (body)` carries the parsed
JSON body, or `none` when `response.json()` would raise (unparsable body);
`transportError` and `timeout` are the `httpx` exceptions. -/

/-- Outcome of the single HTTP GET a method performs. -/
inductive HttpResult where
  | response : Nat → Option JValue → HttpResult
  | transportError : String → HttpResult
  | timeout : HttpResult

/-- A GET outcome on which the Python code takes an exception path or the
explicit no-data path: non-200 status, unparsable body, transport error, or
timeout. (The code compares the status to 200, so every non-2xx status —
and also every other 2xx status — lands here.) -/
def isFailure : HttpResult → Bool
  | .response status body => status != 200 || body.isNone
  | .transportError _ => true
  | .timeout => true

/-- The formatted specialty dict built by `get_specialty` from one matching
element (Python `specialty.get(...)` yields `None` → `JValue.null` for
missing keys). -/
def formatSpecialty (s : JValue) : JValue :=
  .obj [ ("id", jgetD s "id" .null),
         ("name", jgetD s "name" .null),
         ("description", jgetD s "description" .null),
         ("imageUrl", jgetD s "imageUrl" .null) ]

/-- The scan `for specialty in specialties: if specialty.get("id") == specialty_id`.
A non-object element makes Python's `specialty.get` raise (`Except.error`);
Python `== specialty_id` against a non-string value is `False`. -/
def findSpecialty (specialty_id : String) : List JValue → Except String (Option JValue)
  | [] => .ok none
  | s :: rest =>
    match s with
    | .obj _ =>
      match jget s "id" with
      | some (.str v) =>
        if v == specialty_id then .ok (some (formatSpecialty s))
        else findSpecialty specialty_id rest
      | _ => findSpecialty specialty_id rest
    | _ => .error "attribute error: get on non-dict element"

/-- `data.get("data", [])` of `get_specialty`, with the type constraints
the following `for` loop imposes: a non-dict parsed body makes `.get`
raise, and iterating a non-list `data` value either raises or (for an
empty string or dict) falls through to `return None`; every observable
outcome of those coincides with the error path, which the `except` wrapper
also sends to `None`. -/
def specialtiesPayload (j : JValue) : Except String (List JValue) :=
  match j with
  | .obj _ =>
    match jgetD j "data" (.arr []) with
    | .arr specialties => .ok specialties
    | _ => .error "type error: iteration over non-list"
  | _ => .error "attribute error: get on non-dict body"

/-- The body of the `try` block of `DoctorMateAPIService.get_specialty`:
on a 200 response parse the body, take `data.get("data", [])`, scan for the
matching id; any raised exception is `Except.error`. -/
def getSpecialtyExc (r : HttpResult) (specialty_id : String) :
    Except String (Option JValue) :=
  match r with
  | .response status body =>
    if status == 200 then
      match body with
      | some j =>
        match specialtiesPayload j with
        | .ok specialties => findSpecialty specialty_id specialties
        | .error e => .error e
      | none => .error "json decode error"
    else
      .ok none
  | .transportError msg => .error msg
  | .timeout => .error "timeout"

/-- `DoctorMateAPIService.get_specialty`: the `try/except` wrapper logs any
exception and returns `None`. -/
def get_specialty (r : HttpResult) (specialty_id : String) : Option JValue :=
  match getSpecialtyExc r specialty_id with
  | .ok v => v
  | .error _ => none

/-- The seven keys kept for each doctor, in the order the code writes them. -/
def doctorFields : List String :=
  ["id", "fullName", "imageUrl", "consultationFee", "address",
   "workingTime", "qualifications"]

/-- One element of the list comprehension in `get_recommended_doctors`:
the dict of the seven `doctor.get(...)` fields. Python's `.get` raises on a
non-dict element. -/
def formatDoctor (d : JValue) : Except String JValue :=
  match d with
  | .obj _ => .ok (.obj (doctorFields.map (fun k => (k, jgetD d k .null))))
  | _ => .error "attribute error: get on non-dict element"

/-- The list comprehension of `get_recommended_doctors` evaluated left to
right: the first non-dict element raises, aborting the whole list. -/
def formatDoctors : List JValue → Except String (List JValue)
  | [] => .ok []
  | d :: rest =>
    match formatDoctor d with
    | .error e => .error e
    | .ok v =>
      match formatDoctors rest with
      | .error e => .error e
      | .ok vs => .ok (v :: vs)

/-- `data.get("data", {}).get("doctors", [])` of `get_recommended_doctors`,
with the type constraints the slice and the element `.get` impose: a
non-dict level makes `.get` raise, a non-list `doctors` value either
raises under slicing or yields the empty result; every observable outcome
of those coincides with the error path, which the `except` wrapper also
sends to `[]`. -/
def doctorsPayload (j : JValue) : Except String (List JValue) :=
  match j with
  | .obj _ =>
    match jgetD j "data" (.obj []) with
    | .obj _ =>
      match jgetD (jgetD j "data" (.obj [])) "doctors" (.arr []) with
      | .arr doctors => .ok doctors
      | _ => .error "type error: slice of non-list"
    | _ => .error "attribute error: get on non-dict data"
  | _ => .error "attribute error: get on non-dict body"

/-- The body of the `try` block of `get_recommended_doctors`: on a 200
response take the doctors array, slice it to `limit` and format each
element; exceptions are `Except.error`. -/
def getRecommendedDoctorsExc (r : HttpResult) (limit : Nat) :
    Except String (List JValue) :=
  match r with
  | .response status body =>
    if status == 200 then
      match body with
      | some j =>
        match doctorsPayload j with
        | .ok doctors => formatDoctors (doctors.take limit)
        | .error e => .error e
      | none => .error "json decode error"
    else
      .ok []
  | .transportError msg => .error msg
  | .timeout => .error "timeout"

/-- `DoctorMateAPIService.get_recommended_doctors`: the `try/except`
wrapper logs any exception and returns `[]`. -/
def get_recommended_doctors (r : HttpResult) (limit : Nat) : List JValue :=
  match getRecommendedDoctorsExc r limit with
  | .ok l => l
  | .error _ => []

/-- Python truthiness of the optional token strings the services test with
`if token:` / `if not self.api_key:`: `None` and the empty string are falsy. -/
def pyTruthy : Option String → Bool
  | none => false
  | some s => s != ""

/-- Python `round(x)` (and `int(round(x))`): round half to even. -/
def pyRound (x : ℚ) : ℤ :=
  if x - (⌊x⌋ : ℚ) < 1 / 2 then ⌊x⌋
  else if 1 / 2 < x - (⌊x⌋ : ℚ) then ⌊x⌋ + 1
  else if Even ⌊x⌋ then ⌊x⌋ else ⌊x⌋ + 1

/-- Python `round(x, 1)`: round to one decimal digit. -/
def round1 (x : ℚ) : ℚ :=
  (pyRound (x * 10) : ℚ) / 10

/-! ## SkinAnalysisService (skin_service.py)

The ONNX forward pass is external: its output row `probs = predictions[0]`
is the input of the embedded formatting, a vector of seven rationals. The
knowledge base `skin_rules.json` is data loaded at construction time and is
not among the sources; it is a parameter `kb` here (the spec's glossary:
a static JSON table mapping skin diagnosis codes to descriptive text
fields). -/

/-- `SkinAnalysisService.CLASS_NAMES`. -/
def CLASS_NAMES : List String := ["akiec", "bcc", "bkl", "df", "mel", "nv", "vasc"]

/-- The class code at an index of the model output row. -/
def classAt (i : Fin 7) : String := CLASS_NAMES.getD i.val ""

/-- `int(np.argmax(probs))`: index of the maximum, first occurrence on ties. -/
def argmaxIdx (v : Fin 7 → ℚ) : Fin 7 :=
  (List.finRange 7).foldl (fun best i => if v best < v i then i else best) 0

/-- Modelled from the spec: one entry of the knowledge base
`app/services/skin_rules.json`, which is not among the sources. Per the
spec's glossary it is a static JSON table mapping skin diagnosis codes to
descriptive text fields; every field access in the code is
`lesion_info.get(key, default)`, so each field is optional here. -/
structure KBEntry where
  name : Option String := none
  severity : Option String := none
  description : Option String := none
  recommendations : Option (List String) := none
  emergency_care : Option String := none
  risk_factors : Option (List String) := none
  symptoms : Option (List String) := none
  prognosis : Option String := none
  treatment_options : Option (List String) := none

/-- The `additional_info` block of the skin result. -/
structure AdditionalInfo where
  diagnosis_code : String
  risk_factors : List String
  symptoms : List String
  prognosis : String
  treatment_options : List String
  all_probabilities : List (String × ℚ)

/-- The dict returned by `SkinAnalysisService._format_prediction`. -/
structure SkinResult where
  possible_diagnosis : String
  confidence : ℤ
  severity : String
  description : String
  recommendations : List String
  emergency_care : String
  specialty : JValue
  recommended_doctors : List JValue
  additional_info : AdditionalInfo
  disclaimer : String

/-- The `all_probabilities` dict comprehension: each class code, in
`CLASS_NAMES` order, mapped to `round(float(probs[i]) * 100, 1)`. -/
def all_probabilities (v : Fin 7 → ℚ) : List (String × ℚ) :=
  (List.finRange 7).map (fun i => (classAt i, round1 (v i * 100)))

/-- `SkinAnalysisService._format_prediction`. The two awaited client calls
of the enrichment branch are represented by the outcomes `specResp` and
`docResp` of the GETs they perform; `get_specialty`'s `None` is turned into
an empty dict by `or` and the inner `try/except` re-raises nothing because
both embedded client methods are total. -/
def formatPrediction (probs : Fin 7 → ℚ) (kb : String → Option KBEntry)
    (token : Option String) (specResp docResp : HttpResult) : SkinResult :=
  let idx := argmaxIdx probs
  let diagnosis := classAt idx
  let lesionInfo := kb diagnosis
  let specialty_id := get_specialty_for_skin_lesion diagnosis
  let enriched :=
    if pyTruthy token then
      ((get_specialty specResp specialty_id).getD (.obj []),
       get_recommended_doctors docResp 3)
    else ((.obj [] : JValue), ([] : List JValue))
  { possible_diagnosis := (lesionInfo.bind KBEntry.name).getD "Unknown",
    confidence := pyRound (probs idx * 100),
    severity := (lesionInfo.bind KBEntry.severity).getD "Mild",
    description :=
      (lesionInfo.bind KBEntry.description).getD "No description available.",
    recommendations := (lesionInfo.bind KBEntry.recommendations).getD [],
    emergency_care :=
      (lesionInfo.bind KBEntry.emergency_care).getD
        "Consult a healthcare provider if concerned.",
    specialty := enriched.1,
    recommended_doctors := enriched.2,
    additional_info :=
      { diagnosis_code := diagnosis,
        risk_factors := (lesionInfo.bind KBEntry.risk_factors).getD [],
        symptoms := (lesionInfo.bind KBEntry.symptoms).getD [],
        prognosis :=
          (lesionInfo.bind KBEntry.prognosis).getD
            "Please consult a dermatologist for proper assessment.",
        treatment_options := (lesionInfo.bind KBEntry.treatment_options).getD [],
        all_probabilities := all_probabilities probs },
    disclaimer := "This is an AI-generated assessment and not a substitute for professional medical advice. Please consult a dermatologist for proper diagnosis and treatment." }

/-- What the spec's "full softmax distribution ... scaled to percent" means
for a model output vector, written from the spec's words for comparison with
`all_probabilities` above; the code never computes this. -/
noncomputable def softmaxPercent (v : Fin 7 → ℝ) (i : Fin 7) : ℝ :=
  Real.exp (v i) / (∑ j, Real.exp (v j)) * 100

/-! ## SymptomsAnalysisService (symptoms_service.py) -/

/-- `SymptomsAnalysisService`: its only state is the API key read from the
environment; `__init__` raises `ValueError` when `os.getenv` returned
`None` or an empty string (`if not self.api_key`). -/
structure SymptomsAnalysisService where
  api_key : String

/-- The `ValueError` message of `SymptomsAnalysisService.__init__`. -/
def missingKeyMsg : String := "OPENAI_API_KEY environment variable is not set."

/-- `get_symptoms_service`: the lazy module-level singleton. `envKey` is
what `os.getenv("OPENAI_API_KEY")` returns at construction time, `st` the
current `_symptoms_service` global. Construction happens inside the first
call that finds the global unset; on a raise the global stays unset. -/
def get_symptoms_service (envKey : Option String)
    (st : Option SymptomsAnalysisService) :
    Except String (SymptomsAnalysisService × Option SymptomsAnalysisService) :=
  match st with
  | some svc => .ok (svc, some svc)
  | none =>
    if pyTruthy envKey then
      let svc : SymptomsAnalysisService := ⟨envKey.getD ""⟩
      .ok (svc, some svc)
    else
      .error missingKeyMsg

/-- `result.get("possible_diagnosis", "")` followed by its use as a string:
a present non-string value makes `str.lower()` in the mapper raise. -/
def diagnosisOf (result : JValue) : Except String String :=
  match jget result "possible_diagnosis" with
  | some (.str s) => .ok s
  | none => .ok ""
  | some _ => .error "attribute error: lower on non-string diagnosis"

/-- `SymptomsAnalysisService.analyze_symptoms`. `llm` is the outcome of the
chat-completion call combined with `json.loads` of its content: `.error`
covers a provider failure and a malformed JSON reply alike, both raised
inside the outer `try` and re-raised as `Exception("OpenAI API error: ...")`.
The enrichment GET outcomes are `specResp`/`docResp`; `svc` is the
constructed service. -/
def analyze_symptoms (_svc : SymptomsAnalysisService) (symptoms : String)
    (token : Option String) (llm : Except String JValue)
    (specResp docResp : HttpResult) : Except String JValue :=
  match llm with
  | .error e => .error ("OpenAI API error: " ++ e)
  | .ok result =>
    match result with
    | .obj fields =>
      if pyTruthy token then
        match diagnosisOf result with
        | .error e => .error ("OpenAI API error: " ++ e)
        | .ok diagnosis =>
          let specialty_id := get_specialty_for_symptoms symptoms diagnosis
          let specialty := (get_specialty specResp specialty_id).getD (.obj [])
          let docs := get_recommended_doctors docResp 3
          .ok (.obj (jset (jset fields "specialty" specialty)
                "recommended_doctors" (.arr docs)))
      else
        .ok (.obj (jset (jset fields "specialty" (.obj []))
              "recommended_doctors" (.arr [])))
    | _ => .error "OpenAI API error: item assignment on non-dict result"

/-! ## Route layer (main.py) and response models (models.py) -/

/-- The token both handlers derive from the `Authorization` header:
`if authorization and authorization.startswith("Bearer "):
token = authorization.replace("Bearer ", "")`. -/
def extractToken (authorization : Option String) : Option String :=
  match authorization with
  | none => none
  | some a =>
    if a != "" && startsWithL ("Bearer ").data a.data then
      some (replaceAllStr a "Bearer " "")
    else
      none

/-- What an endpoint sends: a 200 envelope, or a FastAPI error response
with its `detail` body. -/
inductive EndpointOutcome where
  | success : JValue → EndpointOutcome
  | httpError : Nat → JValue → EndpointOutcome

/-- The FastAPI request-validation rejection of `SymptomsRequest`: the
`min_length=1` constraint on `symptoms` fails before the handler runs, and
the framework answers 422 with a list-valued `detail` (framework behavior,
not code under `app/`). -/
def validationDetail422 : JValue :=
  .arr [.obj [ ("type", .str "string_too_short"),
               ("loc", .arr [.str "body", .str "symptoms"]),
               ("msg", .str "String should have at least 1 character") ]]

/-- `POST /ai/symptoms/check` (`symptoms_check` plus the framework's
request validation). Returns the outcome and the new singleton state.
Per the handler: `ValueError` → 400, any other exception → 500, otherwise
the `ApiResponse` envelope. -/
def symptomsRoute (envKey : Option String)
    (st : Option SymptomsAnalysisService) (symptoms : String)
    (authorization : Option String) (llm : Except String JValue)
    (specResp docResp : HttpResult) :
    EndpointOutcome × Option SymptomsAnalysisService :=
  if symptoms.length < 1 then
    (.httpError 422 validationDetail422, st)
  else
    let token := extractToken authorization
    match get_symptoms_service envKey st with
    | .error msg => (.httpError 400 (.str msg), st)
    | .ok (svc, st') =>
      match analyze_symptoms svc symptoms token llm specResp docResp with
      | .error msg => (.httpError 500 (.str msg), st')
      | .ok data =>
        (.success (.obj [ ("code", .num 200),
                          ("message", .str "Symptom analysis completed successfully"),
                          ("data", data) ]), st')

/-- `SeverityLevel` of models.py. -/
inductive SeverityLevel where
  | mild
  | moderate
  | severe
deriving DecidableEq

/-- The literal of each `SeverityLevel` member. -/
def severityString : SeverityLevel → String
  | .mild => "Mild"
  | .moderate => "Moderate"
  | .severe => "Severe"

/-- The three severity literals of models.py. -/
def severityLiterals : List String := ["Mild", "Moderate", "Severe"]

/-- Pydantic validation of a string against the `SeverityLevel` enum. -/
def severityOfString (s : String) : Option SeverityLevel :=
  if s = "Mild" then some .mild
  else if s = "Moderate" then some .moderate
  else if s = "Severe" then some .severe
  else none

/-- A JSON value accepted for a `str` field. -/
def asStr : JValue → Option String
  | .str s => some s
  | _ => none

/-- A JSON value accepted for a `List[str]` field. -/
def asStrList : JValue → Option (List String)
  | .arr xs => xs.mapM asStr
  | _ => none

/-- Pydantic validation of the `confidence` field:
`int = Field(..., ge=0, le=100)` — out-of-range values are rejected,
not clamped. -/
def validateConfidence : JValue → Option ℤ
  | .num n => if 0 ≤ n ∧ n ≤ 100 then some n else none
  | _ => none

/-- `SymptomsResponseData` of models.py, as validated data. -/
structure SymptomsResponseData where
  possible_diagnosis : String
  confidence : ℤ
  severity : SeverityLevel
  description : String
  recommendations : List String
  emergency_care : String
  disclaimer : String

/-- Pydantic validation of a JSON value against `SymptomsResponseData`:
succeeds exactly when every declared field is present with an acceptable
value; this is what the `response_model` enforces on a 200 reply. -/
def validateSymptomsResponseData (j : JValue) : Option SymptomsResponseData :=
  match (jget j "possible_diagnosis").bind asStr,
        (jget j "confidence").bind validateConfidence,
        ((jget j "severity").bind asStr).bind severityOfString,
        (jget j "description").bind asStr,
        (jget j "recommendations").bind asStrList,
        (jget j "emergency_care").bind asStr,
        (jget j "disclaimer").bind asStr with
  | some pd, some c, some sev, some desc, some recs, some ec, some disc =>
    some ⟨pd, c, sev, desc, recs, ec, disc⟩
  | _, _, _, _, _, _, _ => none

/-! ## Theorems: the claims settled against the embedding -/

/-- C1: `get_specialty_for_symptoms` lower-cases both strings and joins them
with a single space, then scans the keyword table in declaration order;
any input whose combined string contains "chest pain" yields the Cardiology
identifier, and an input matching no keyword of any group yields the fixed
General identifier. -/
theorem claim1_get_specialty_for_symptoms (symptoms diagnosis : String) :
    (containsSub ("chest pain").data
        (pyLower symptoms ++ " " ++ pyLower diagnosis).data = true →
      get_specialty_for_symptoms symptoms diagnosis = cardiologyId)
  ∧ ((∀ kw ∈ allKeywords,
        containsSub kw (pyLower symptoms ++ " " ++ pyLower diagnosis).data = false) →
      get_specialty_for_symptoms symptoms diagnosis = generalId) := by
  constructor
  · intro h
    have hm : ("chest pain").data ∈
        splitChar '|' ("heart|chest pain|palpitation|cardiac" : String).data := by decide
    have hg : groupMatches "heart|chest pain|palpitation|cardiac"
        (pyLower symptoms ++ " " ++ pyLower diagnosis).data = true :=
      List.any_eq_true.mpr ⟨_, hm, h⟩
    simp only [get_specialty_for_symptoms, SYMPTOM_KEYWORDS_MAP, firstMatch]
    rw [hg]
    rfl
  · intro h
    have h1 : groupMatches "heart|chest pain|palpitation|cardiac"
        (pyLower symptoms ++ " " ++ pyLower diagnosis).data = false := by
      rw [groupMatches, List.any_eq_false]
      intro kw hkw
      simpa using h kw (List.mem_flatMap.mpr
        ⟨("heart|chest pain|palpitation|cardiac", cardiologyId), by decide, hkw⟩)
    have h2 : groupMatches "brain|headache|seizure|neurological|nerve"
        (pyLower symptoms ++ " " ++ pyLower diagnosis).data = false := by
      rw [groupMatches, List.any_eq_false]
      intro kw hkw
      simpa using h kw (List.mem_flatMap.mpr
        ⟨("brain|headache|seizure|neurological|nerve", neurologyId), by decide, hkw⟩)
    have h3 : groupMatches "skin|rash|acne|eczema|dermatological"
        (pyLower symptoms ++ " " ++ pyLower diagnosis).data = false := by
      rw [groupMatches, List.any_eq_false]
      intro kw hkw
      simpa using h kw (List.mem_flatMap.mpr
        ⟨("skin|rash|acne|eczema|dermatological", dermatologyId), by decide, hkw⟩)
    have h4 : groupMatches "child|infant|pediatric|baby"
        (pyLower symptoms ++ " " ++ pyLower diagnosis).data = false := by
      rw [groupMatches, List.any_eq_false]
      intro kw hkw
      simpa using h kw (List.mem_flatMap.mpr
        ⟨("child|infant|pediatric|baby", pediatricsId), by decide, hkw⟩)
    simp only [get_specialty_for_symptoms, SYMPTOM_KEYWORDS_MAP, firstMatch]
    rw [h1, h2, h3, h4]
    rfl

theorem claim1_witness :
    get_specialty_for_symptoms "Chest Pain and dizziness" "angina" = cardiologyId
  ∧ get_specialty_for_symptoms "fatigue" "anemia" = generalId :=
  ⟨(claim1_get_specialty_for_symptoms "Chest Pain and dizziness" "angina").1 (by decide),
   (claim1_get_specialty_for_symptoms "fatigue" "anemia").2 (by decide)⟩

/-- C2: `get_specialty_for_skin_lesion` is total on strings: each of the seven
codes is in the map and yields the fixed Dermatology identifier, and every
other string yields that same identifier as the default. -/
theorem claim2_get_specialty_for_skin_lesion :
    (∀ code : String, get_specialty_for_skin_lesion code = dermatologyId)
  ∧ (∀ code ∈ ["mel", "bcc", "akiec", "bkl", "df", "nv", "vasc"],
      (SKIN_LESION_MAP.find? (fun p => p.1 == code)).isSome) := by
  constructor
  · intro code
    unfold get_specialty_for_skin_lesion dictGetD
    rcases hf : SKIN_LESION_MAP.find? (fun p => p.1 == code) with _ | p
    · rw [hf]
    · have hmem := List.mem_of_find?_eq_some hf
      rw [hf]
      simp only [SKIN_LESION_MAP, List.mem_cons, List.not_mem_nil, or_false] at hmem
      rcases hmem with h|h|h|h|h|h|h <;> subst h <;> rfl
  · intro code hc
    fin_cases hc <;> decide

theorem claim2_witness :
    get_specialty_for_skin_lesion "mel" = dermatologyId
  ∧ get_specialty_for_skin_lesion "unknown-code" = dermatologyId
  ∧ (SKIN_LESION_MAP.find? (fun p => p.1 == "vasc")).isSome :=
  ⟨claim2_get_specialty_for_skin_lesion.1 "mel",
   claim2_get_specialty_for_skin_lesion.1 "unknown-code",
   claim2_get_specialty_for_skin_lesion.2 "vasc" (by decide)⟩

theorem getSpecialty_fail {r : HttpResult} (sid : String)
    (h : isFailure r = true) : get_specialty r sid = none := by
  cases r with
  | response s b =>
    unfold get_specialty getSpecialtyExc
    by_cases hs : s = 200
    · subst hs
      simp only [isFailure, bne_self_eq_false, Bool.false_or] at h
      rw [Option.isNone_iff_eq_none] at h
      subst h
      rfl
    · simp [hs]
  | transportError m => rfl
  | timeout => rfl

theorem getRecommendedDoctors_fail {r : HttpResult} (limit : Nat)
    (h : isFailure r = true) : get_recommended_doctors r limit = [] := by
  cases r with
  | response s b =>
    unfold get_recommended_doctors getRecommendedDoctorsExc
    by_cases hs : s = 200
    · subst hs
      simp only [isFailure, bne_self_eq_false, Bool.false_or] at h
      rw [Option.isNone_iff_eq_none] at h
      subst h
      rfl
    · simp [hs]
  | transportError m => rfl
  | timeout => rfl

theorem formatDoctors_length : ∀ {l l' : List JValue},
    formatDoctors l = .ok l' → l'.length = l.length := by
  intro l
  induction l with
  | nil => intro l' h; cases h; rfl
  | cons d rest ih =>
    intro l' h
    unfold formatDoctors at h
    rcases hd : formatDoctor d with e | v <;> rw [hd] at h
    · cases h
    · rcases hr : formatDoctors rest with e | vs <;> rw [hr] at h
      · cases h
      · cases h
        simp [ih hr]

theorem formatDoctors_keys : ∀ {l l' : List JValue},
    formatDoctors l = .ok l' → ∀ out ∈ l', jKeys out = doctorFields := by
  intro l
  induction l with
  | nil => intro l' h; cases h; intro out hout; cases hout
  | cons d rest ih =>
    intro l' h
    unfold formatDoctors at h
    rcases hd : formatDoctor d with e | v <;> rw [hd] at h
    · cases h
    · rcases hr : formatDoctors rest with e | vs <;> rw [hr] at h
      · cases h
      · cases h
        intro out hout
        rcases List.mem_cons.mp hout with hout | hout
        · subst hout
          unfold formatDoctor at hd
          cases d with
          | obj fs =>
            cases hd
            simp [jKeys, doctorFields]
          | null => cases hd
          | str s => cases hd
          | num n => cases hd
          | arr xs => cases hd
        · exact ih hr out hout

theorem formatDoctors_of_objs : ∀ {l : List JValue},
    (∀ d ∈ l, ∃ fs, d = JValue.obj fs) →
    formatDoctors l =
      .ok (l.map (fun d => JValue.obj (doctorFields.map (fun k => (k, jgetD d k .null))))) := by
  intro l
  induction l with
  | nil => intro _; rfl
  | cons d rest ih =>
    intro h
    rcases h d (List.mem_cons_self d rest) with ⟨fs, rfl⟩
    unfold formatDoctors formatDoctor
    rw [ih (fun x hx => h x (List.mem_cons_of_mem _ hx))]
    rfl

theorem getRecommendedDoctors_shape (r : HttpResult) (limit : Nat) :
    get_recommended_doctors r limit = []
  ∨ ∃ ds : List JValue,
      formatDoctors (ds.take limit) = .ok (get_recommended_doctors r limit) := by
  cases r with
  | response s b =>
    by_cases hs : s = 200
    · subst hs
      cases b with
      | none => left; rfl
      | some j =>
        rcases hp : doctorsPayload j with e | ds
        · left
          simp [get_recommended_doctors, getRecommendedDoctorsExc, hp]
        · rcases hf : formatDoctors (ds.take limit) with e | l
          · left
            simp [get_recommended_doctors, getRecommendedDoctorsExc, hp, hf]
          · right
            refine ⟨ds, ?_⟩
            simp [get_recommended_doctors, getRecommendedDoctorsExc, hp, hf]
    · left
      simp [get_recommended_doctors, getRecommendedDoctorsExc, hs]
  | transportError m => left; rfl
  | timeout => left; rfl

/-- C3: whatever the upstream payload, `get_recommended_doctors` returns at
most `limit` entries; each entry keeps exactly the seven doctor fields, and
for a well-formed payload the result is the seven-field formatting mapped
over the truncated doctors array in upstream order. -/
theorem claim3_get_recommended_doctors :
    ∀ (r : HttpResult) (limit : Nat),
    ((get_recommended_doctors r limit).length ≤ limit)
  ∧ (∀ out ∈ get_recommended_doctors r limit, jKeys out = doctorFields)
  ∧ (∀ ds : List JValue, (∀ d ∈ ds, ∃ fs, d = JValue.obj fs) →
      get_recommended_doctors
          (.response 200 (some (.obj [("data", .obj [("doctors", .arr ds)])]))) limit =
        (ds.take limit).map
          (fun d => JValue.obj (doctorFields.map (fun k => (k, jgetD d k .null))))) := by
  intro r limit
  refine ⟨?_, ?_, ?_⟩
  · rcases getRecommendedDoctors_shape r limit with h | ⟨ds, h⟩
    · simp [h]
    · calc (get_recommended_doctors r limit).length
          = (ds.take limit).length := formatDoctors_length h
        _ ≤ limit := by simp
  · intro out hout
    rcases getRecommendedDoctors_shape r limit with h | ⟨ds, h⟩
    · rw [h] at hout; cases hout
    · exact formatDoctors_keys h out hout
  · intro ds hds
    have hobjs : ∀ d ∈ ds.take limit, ∃ fs, d = JValue.obj fs :=
      fun d hd => hds d (List.take_subset limit ds hd)
    have hp : doctorsPayload (.obj [("data", .obj [("doctors", .arr ds)])]) = .ok ds := rfl
    simp [get_recommended_doctors, getRecommendedDoctorsExc, hp,
      formatDoctors_of_objs hobjs]

/-- C3 witness: a four-doctor payload truncated to the default limit 3. -/
theorem claim3_witness :
    get_recommended_doctors
        (.response 200 (some (.obj [("data", .obj [("doctors",
          .arr [.obj [("id", .str "d1"), ("fullName", .str "Dr. A"), ("extra", .num 1)],
                .obj [("id", .str "d2")],
                .obj [("id", .str "d3")],
                .obj [("id", .str "d4")]])])]))) 3 =
      [ .obj [("id", .str "d1"), ("fullName", .str "Dr. A"), ("imageUrl", .null),
              ("consultationFee", .null), ("address", .null), ("workingTime", .null),
              ("qualifications", .null)],
        .obj [("id", .str "d2"), ("fullName", .null), ("imageUrl", .null),
              ("consultationFee", .null), ("address", .null), ("workingTime", .null),
              ("qualifications", .null)],
        .obj [("id", .str "d3"), ("fullName", .null), ("imageUrl", .null),
              ("consultationFee", .null), ("address", .null), ("workingTime", .null),
              ("qualifications", .null)] ]
  ∧ (get_recommended_doctors
        (.response 200 (some (.obj [("data", .obj [("doctors",
          .arr [.obj [("id", .str "d1")], .obj [("id", .str "d2")],
                .obj [("id", .str "d3")], .obj [("id", .str "d4")]])])]))) 3).length ≤ 3 := by
  constructor
  · have h := (claim3_get_recommended_doctors
      (.response 200 (some (.obj [("data", .obj [("doctors",
        .arr [.obj [("id", .str "d1"), ("fullName", .str "Dr. A"), ("extra", .num 1)],
              .obj [("id", .str "d2")],
              .obj [("id", .str "d3")],
              .obj [("id", .str "d4")]])])]))) 3).2.2
      [.obj [("id", .str "d1"), ("fullName", .str "Dr. A"), ("extra", .num 1)],
       .obj [("id", .str "d2")], .obj [("id", .str "d3")], .obj [("id", .str "d4")]]
      (by intro d hd
          fin_cases hd
          · exact ⟨_, rfl⟩
          · exact ⟨_, rfl⟩
          · exact ⟨_, rfl⟩
          · exact ⟨_, rfl⟩)
    rw [h]
    rfl
  · exact (claim3_get_recommended_doctors _ 3).1

theorem findKey_cons_true {k : String} {p : String × JValue}
    (l : List (String × JValue)) (h : (p.1 == k) = true) :
    List.find? (fun q => q.1 == k) (p :: l) = some p := by
  rw [List.find?_cons, h]

theorem findKey_cons_false {k : String} {p : String × JValue}
    (l : List (String × JValue)) (h : (p.1 == k) = false) :
    List.find? (fun q => q.1 == k) (p :: l) =
      List.find? (fun q => q.1 == k) l := by
  rw [List.find?_cons, h]

theorem find?_set_present {k : String} {v : JValue} :
    ∀ fields : List (String × JValue),
    (fields.find? (fun p => p.1 == k)).isSome = true →
    (fields.map (fun p => if p.1 == k then (k, v) else p)).find?
        (fun p => p.1 == k) = some (k, v) := by
  intro fields
  induction fields with
  | nil => intro h; simp [List.find?] at h
  | cons p rest ih =>
    intro h
    rw [List.map_cons]
    by_cases hp : p.1 = k
    · have h1 : (p.1 == k) = true := by rw [hp, beq_self_eq_true]
      rw [if_pos h1]
      exact findKey_cons_true _ (beq_self_eq_true k)
    · have h1 : (p.1 == k) = false := beq_eq_false_iff_ne.mpr hp
      rw [if_neg (by rw [h1]; exact Bool.false_ne_true)]
      rw [findKey_cons_false _ h1]
      apply ih
      rwa [findKey_cons_false _ h1] at h

theorem find?_append_absent {k : String} {v : JValue} :
    ∀ fields : List (String × JValue),
    fields.find? (fun p => p.1 == k) = none →
    (fields ++ [(k, v)]).find? (fun p => p.1 == k) = some (k, v) := by
  intro fields
  induction fields with
  | nil =>
    intro _
    rw [List.nil_append]
    exact findKey_cons_true _ (beq_self_eq_true k)
  | cons p rest ih =>
    intro h
    cases hpb : (p.1 == k) with
    | true => rw [findKey_cons_true _ hpb] at h; cases h
    | false =>
      rw [List.cons_append, findKey_cons_false _ hpb]
      apply ih
      rwa [findKey_cons_false _ hpb] at h

theorem find?_set_ne {k k' : String} {v : JValue} (hne : k ≠ k') :
    ∀ fields : List (String × JValue),
    (fields.map (fun p => if p.1 == k' then (k', v) else p)).find?
        (fun p => p.1 == k) = fields.find? (fun p => p.1 == k) := by
  intro fields
  induction fields with
  | nil => rfl
  | cons p rest ih =>
    rw [List.map_cons]
    by_cases hp : p.1 = k'
    · have h1 : (p.1 == k') = true := by rw [hp, beq_self_eq_true]
      have h2 : (p.1 == k) = false := by
        rw [hp, beq_eq_false_iff_ne]
        exact fun e => hne e.symm
      have h3 : (((k', v) : String × JValue).1 == k) = false := by
        show (k' == k) = false
        rw [beq_eq_false_iff_ne]
        exact fun e => hne e.symm
      rw [if_pos h1, findKey_cons_false _ h3, findKey_cons_false _ h2, ih]
    · have h1 : (p.1 == k') = false := beq_eq_false_iff_ne.mpr hp
      rw [if_neg (by rw [h1]; exact Bool.false_ne_true)]
      cases hpk : (p.1 == k) with
      | true => rw [findKey_cons_true _ hpk, findKey_cons_true _ hpk]
      | false => rw [findKey_cons_false _ hpk, findKey_cons_false _ hpk, ih]

theorem find?_append_ne {k k' : String} {v : JValue} (hne : k ≠ k') :
    ∀ fields : List (String × JValue),
    (fields ++ [(k', v)]).find? (fun p => p.1 == k) =
      fields.find? (fun p => p.1 == k) := by
  intro fields
  induction fields with
  | nil =>
    have h3 : (((k', v) : String × JValue).1 == k) = false := by
      show (k' == k) = false
      rw [beq_eq_false_iff_ne]
      exact fun e => hne e.symm
    rw [List.nil_append, findKey_cons_false _ h3]
  | cons p rest ih =>
    cases hpk : (p.1 == k) with
    | true => rw [List.cons_append, findKey_cons_true _ hpk, findKey_cons_true _ hpk]
    | false => rw [List.cons_append, findKey_cons_false _ hpk, findKey_cons_false _ hpk, ih]

theorem find?_jset_self (fields : List (String × JValue)) (k : String) (v : JValue) :
    (jset fields k v).find? (fun p => p.1 == k) = some (k, v) := by
  unfold jset
  by_cases h : (fields.find? (fun p => p.1 == k)).isSome = true
  · rw [if_pos h]
    exact find?_set_present fields h
  · rw [if_neg h]
    exact find?_append_absent fields (by rwa [← Option.not_isSome_iff_eq_none])

theorem find?_jset_ne (fields : List (String × JValue)) {k k' : String}
    (v : JValue) (hne : k ≠ k') :
    (jset fields k' v).find? (fun p => p.1 == k) =
      fields.find? (fun p => p.1 == k) := by
  unfold jset
  by_cases h : (fields.find? (fun p => p.1 == k')).isSome = true
  · rw [if_pos h]
    exact find?_set_ne hne fields
  · rw [if_neg h]
    exact find?_append_ne hne fields

theorem jget_jset (fields : List (String × JValue)) (k : String) (v : JValue) :
    jget (.obj (jset fields k v)) k = some v := by
  show (match (jset fields k v).find? (fun p => p.1 == k) with
    | some p => some p.2
    | none => none) = some v
  rw [find?_jset_self]

theorem jget_jset_ne (fields : List (String × JValue)) {k k' : String}
    (v : JValue) (hne : k ≠ k') :
    jget (.obj (jset fields k' v)) k = jget (.obj fields) k := by
  show (match (jset fields k' v).find? (fun p => p.1 == k) with
    | some p => some p.2
    | none => none) =
    (match fields.find? (fun p => p.1 == k) with
    | some p => some p.2
    | none => none)
  rw [find?_jset_ne fields v hne]

/-- C4: on every failure outcome of the single GET (non-2xx status,
transport error, timeout, unparsable body) `get_specialty` returns `None`
and `get_recommended_doctors` returns the empty list; every exception of
the request body is caught, never propagated. -/
theorem claim4_failure_degradation :
    ∀ (r : HttpResult) (sid : String) (limit : Nat),
    (isFailure r = true →
      get_specialty r sid = none ∧ get_recommended_doctors r limit = [])
  ∧ (∀ e, getSpecialtyExc r sid = .error e → get_specialty r sid = none)
  ∧ (∀ e, getRecommendedDoctorsExc r limit = .error e →
      get_recommended_doctors r limit = []) := by
  intro r sid limit
  refine ⟨fun h => ⟨getSpecialty_fail sid h, getRecommendedDoctors_fail limit h⟩, ?_, ?_⟩
  · intro e he
    unfold get_specialty
    rw [he]
  · intro e he
    unfold get_recommended_doctors
    rw [he]

/-- C4 witness: timeout, transport error, a 404 and an unparsable 200 body. -/
theorem claim4_witness :
    get_specialty .timeout "spec-1" = none
  ∧ get_recommended_doctors (.transportError "connection refused") 3 = []
  ∧ get_specialty (.response 404 (some (.obj []))) "spec-1" = none
  ∧ get_recommended_doctors (.response 200 none) 3 = [] :=
  ⟨((claim4_failure_degradation .timeout "spec-1" 3).1 rfl).1,
   ((claim4_failure_degradation (.transportError "connection refused") "spec-1" 3).1 rfl).2,
   ((claim4_failure_degradation (.response 404 (some (.obj []))) "spec-1" 3).1 rfl).1,
   ((claim4_failure_degradation (.response 200 none) "spec-1" 3).1 rfl).2⟩

/-- C5: with no token (and equally with a falsy one) both services produce
`specialty` equal to the empty object and `recommended_doctors` equal to the
empty list, and the same holds when a token is supplied but both upstream
enrichment calls fail; no error is surfaced either way. -/
theorem claim5_empty_enrichment :
    ∀ (probs : Fin 7 → ℚ) (kb : String → Option KBEntry)
      (token : Option String) (specResp docResp : HttpResult)
      (svc : SymptomsAnalysisService) (symptoms : String)
      (fields : List (String × JValue)),
    (pyTruthy token = false →
      (formatPrediction probs kb token specResp docResp).specialty = .obj []
      ∧ (formatPrediction probs kb token specResp docResp).recommended_doctors = []
      ∧ ∃ fs, analyze_symptoms svc symptoms token (.ok (.obj fields)) specResp docResp
            = .ok (.obj fs)
          ∧ jget (.obj fs) "specialty" = some (.obj [])
          ∧ jget (.obj fs) "recommended_doctors" = some (.arr []))
  ∧ (isFailure specResp = true → isFailure docResp = true →
      (formatPrediction probs kb token specResp docResp).specialty = .obj []
      ∧ (formatPrediction probs kb token specResp docResp).recommended_doctors = []
      ∧ ∀ d, diagnosisOf (.obj fields) = .ok d →
          ∃ fs, analyze_symptoms svc symptoms token (.ok (.obj fields)) specResp docResp
              = .ok (.obj fs)
            ∧ jget (.obj fs) "specialty" = some (.obj [])
            ∧ jget (.obj fs) "recommended_doctors" = some (.arr [])) := by
  intro probs kb token specResp docResp svc symptoms fields
  have hsetget : ∀ spec : JValue,
      jget (.obj (jset (jset fields "specialty" spec) "recommended_doctors" (.arr [])))
          "specialty" = some spec
      ∧ jget (.obj (jset (jset fields "specialty" spec) "recommended_doctors" (.arr [])))
          "recommended_doctors" = some (.arr []) := by
    intro spec
    refine ⟨?_, jget_jset _ _ _⟩
    rw [jget_jset_ne _ _ (by decide)]
    exact jget_jset _ _ _
  constructor
  · intro h
    refine ⟨by simp [formatPrediction, h], by simp [formatPrediction, h], ?_⟩
    refine ⟨jset (jset fields "specialty" (.obj [])) "recommended_doctors" (.arr []), ?_,
      (hsetget (.obj [])).1, (hsetget (.obj [])).2⟩
    simp [analyze_symptoms, h]
  · intro h1 h2
    have hspec : ∀ sid, (get_specialty specResp sid).getD (.obj []) = .obj [] := by
      intro sid
      rw [getSpecialty_fail sid h1]
      rfl
    have hdocs : get_recommended_doctors docResp 3 = [] :=
      getRecommendedDoctors_fail 3 h2
    refine ⟨?_, ?_, ?_⟩
    · cases ht : pyTruthy token with
      | true => simp [formatPrediction, ht, hspec, hdocs]
      | false => simp [formatPrediction, ht]
    · cases ht : pyTruthy token with
      | true => simp [formatPrediction, ht, hspec, hdocs]
      | false => simp [formatPrediction, ht]
    · intro d hd
      refine ⟨jset (jset fields "specialty" (.obj [])) "recommended_doctors" (.arr []), ?_,
        (hsetget (.obj [])).1, (hsetget (.obj [])).2⟩
      cases ht : pyTruthy token with
      | true => simp [analyze_symptoms, ht, hd, hspec, hdocs]
      | false => simp [analyze_symptoms, ht]

/-- C5 witness: the skin result without a token and with a token whose
enrichment calls time out. -/
theorem claim5_witness :
    (formatPrediction (fun _ => 0) (fun _ => none) none .timeout .timeout).specialty = .obj []
  ∧ (formatPrediction (fun _ => 0) (fun _ => none) none .timeout .timeout).recommended_doctors = []
  ∧ (formatPrediction (fun _ => 0) (fun _ => none) (some "tok") .timeout .timeout).specialty = .obj []
  ∧ (formatPrediction (fun _ => 0) (fun _ => none) (some "tok") .timeout .timeout).recommended_doctors = [] := by
  refine ⟨?_, ?_, ?_, ?_⟩
  · exact ((claim5_empty_enrichment (fun _ => 0) (fun _ => none) none .timeout .timeout
      ⟨"k"⟩ "fever" []).1 rfl).1
  · exact ((claim5_empty_enrichment (fun _ => 0) (fun _ => none) none .timeout .timeout
      ⟨"k"⟩ "fever" []).1 rfl).2.1
  · exact ((claim5_empty_enrichment (fun _ => 0) (fun _ => none) (some "tok") .timeout .timeout
      ⟨"k"⟩ "fever" []).2 rfl rfl).1
  · exact ((claim5_empty_enrichment (fun _ => 0) (fun _ => none) (some "tok") .timeout .timeout
      ⟨"k"⟩ "fever" []).2 rfl rfl).2.1

theorem abs_pyRound_sub (x : ℚ) : |(pyRound x : ℚ) - x| ≤ 1 / 2 := by
  have hfl : (⌊x⌋ : ℚ) ≤ x := Int.floor_le x
  have hfl2 : x < (⌊x⌋ : ℚ) + 1 := Int.lt_floor_add_one x
  unfold pyRound
  split_ifs with h1 h2 h3 <;> rw [abs_le] <;> constructor <;> push_cast <;> linarith

theorem pyRound_bounds {x : ℚ} (h0 : 0 ≤ x) (h1 : x ≤ 100) :
    0 ≤ pyRound x ∧ pyRound x ≤ 100 := by
  have habs := abs_pyRound_sub x
  rw [abs_le] at habs
  constructor
  · by_contra hc
    push_neg at hc
    have hle : pyRound x ≤ -1 := by omega
    have : (pyRound x : ℚ) ≤ -1 := by exact_mod_cast hle
    linarith [habs.1]
  · by_contra hc
    push_neg at hc
    have hge : 101 ≤ pyRound x := by omega
    have : (101 : ℚ) ≤ (pyRound x : ℚ) := by exact_mod_cast hge
    linarith [habs.2]

theorem pyRound_int (n : ℤ) : pyRound (n : ℚ) = n := by
  unfold pyRound
  rw [Int.floor_intCast, sub_self, if_pos (by norm_num)]

theorem abs_round1_sub (x : ℚ) : |round1 x - x| ≤ 1 / 20 := by
  unfold round1
  have h := abs_pyRound_sub (x * 10)
  have heq : (pyRound (x * 10) : ℚ) / 10 - x = ((pyRound (x * 10) : ℚ) - x * 10) / 10 := by
    ring
  rw [heq, abs_div, abs_of_nonneg (by norm_num : (0 : ℚ) ≤ 10)]
  linarith

theorem round1_zero : round1 ((0 : ℚ) * 100) = 0 := by
  unfold round1
  have h : ((0 : ℚ) * 100) * 10 = ((0 : ℤ) : ℚ) := by norm_num
  rw [h, pyRound_int]
  norm_num

theorem validateConfidence_bounds {x : JValue} {n : ℤ}
    (h : validateConfidence x = some n) : 0 ≤ n ∧ n ≤ 100 := by
  cases x <;> simp [validateConfidence] at h
  case num m =>
    rcases h with ⟨⟨hm0, hm1⟩, hmn⟩
    subst hmn
    exact ⟨hm0, hm1⟩

/-- C6 counterexample: the code does not clamp—`int(round(p * 100))` on a
model output row whose arg-max entry is 2 yields confidence 200, outside
the claimed range of 0 to 100. -/
theorem claim6_counterexample :
    (formatPrediction (fun _ => 2) (fun _ => none) none .timeout .timeout).confidence = 200
  ∧ ¬((formatPrediction (fun _ => 2) (fun _ => none) none .timeout .timeout).confidence ≤ 100) := by
  have h1 : (formatPrediction (fun _ => 2) (fun _ => none) none .timeout .timeout).confidence
      = pyRound ((2 : ℚ) * 100) := rfl
  have h2 : ((2 : ℚ) * 100) = ((200 : ℤ) : ℚ) := by norm_num
  have h3 : (formatPrediction (fun _ => 2) (fun _ => none) none .timeout .timeout).confidence
      = 200 := by rw [h1, h2, pyRound_int]
  exact ⟨h3, by rw [h3]; omega⟩

/-- C6 amended: the skin confidence lies in the range 0 to 100 whenever the
model output entries lie in the unit interval (it is computed by rounding,
not clamping, so out-of-range rows violate it); the skin severity is one of
the three literals whenever every knowledge-base severity is; and any JSON
value accepted by the `SymptomsResponseData` model has confidence in the
range 0 to 100 and severity among the three literals. -/
theorem claim6_amended :
    ∀ (v : Fin 7 → ℚ) (kb : String → Option KBEntry) (token : Option String)
      (sr dr : HttpResult),
    ((∀ i, 0 ≤ v i ∧ v i ≤ 1) →
      0 ≤ (formatPrediction v kb token sr dr).confidence
      ∧ (formatPrediction v kb token sr dr).confidence ≤ 100)
  ∧ ((∀ code e s, kb code = some e → e.severity = some s → s ∈ severityLiterals) →
      (formatPrediction v kb token sr dr).severity ∈ severityLiterals)
  ∧ (∀ j rd, validateSymptomsResponseData j = some rd →
      (0 ≤ rd.confidence ∧ rd.confidence ≤ 100)
      ∧ severityString rd.severity ∈ severityLiterals) := by
  intro v kb token sr dr
  refine ⟨?_, ?_, ?_⟩
  · intro h
    have hc : (formatPrediction v kb token sr dr).confidence =
        pyRound (v (argmaxIdx v) * 100) := rfl
    rw [hc]
    exact pyRound_bounds
      (by nlinarith [(h (argmaxIdx v)).1])
      (by nlinarith [(h (argmaxIdx v)).1, (h (argmaxIdx v)).2])
  · intro h
    have hs : (formatPrediction v kb token sr dr).severity =
        ((kb (classAt (argmaxIdx v))).bind KBEntry.severity).getD "Mild" := rfl
    rw [hs]
    cases hkb : kb (classAt (argmaxIdx v)) with
    | none => simp [severityLiterals]
    | some e =>
      cases hsev : e.severity with
      | none => simp [Option.bind, hsev, severityLiterals]
      | some s =>
        simp only [Option.bind, hsev, Option.getD]
        exact h _ e s hkb hsev
  · intro j rd h
    unfold validateSymptomsResponseData at h
    split at h
    case _ pd c sev desc recs ec disc hpd hc hsev hdesc hrecs hec hdisc =>
      cases h
      refine ⟨?_, ?_⟩
      · rcases Option.bind_eq_some.mp hc with ⟨x, hx, hvc⟩
        exact validateConfidence_bounds hvc
      · cases sev <;> simp [severityString, severityLiterals]
    case _ => cases h

/-- C6 amended witness: a unit-interval output row, an empty knowledge base
and a concrete valid response body. -/
theorem claim6_amended_witness :
    (0 ≤ (formatPrediction (fun _ => 1/2) (fun _ => none) none .timeout .timeout).confidence
     ∧ (formatPrediction (fun _ => 1/2) (fun _ => none) none .timeout .timeout).confidence ≤ 100)
  ∧ (formatPrediction (fun _ => 1/2) (fun _ => none) none .timeout .timeout).severity
      ∈ severityLiterals
  ∧ ((0 ≤ (87 : ℤ) ∧ (87 : ℤ) ≤ 100) ∧ severityString SeverityLevel.moderate ∈ severityLiterals) :=
  ⟨(claim6_amended (fun _ => 1/2) (fun _ => none) none .timeout .timeout).1
      (fun _ => by norm_num),
   (claim6_amended (fun _ => 1/2) (fun _ => none) none .timeout .timeout).2.1
      (fun _ _ _ h => nomatch h),
   (claim6_amended (fun _ => 1/2) (fun _ => none) none .timeout .timeout).2.2
      (.obj [ ("possible_diagnosis", .str "Influenza"),
              ("confidence", .num 87),
              ("severity", .str "Moderate"),
              ("description", .str "Viral infection"),
              ("recommendations", .arr [.str "Rest"]),
              ("emergency_care", .str "Seek care if breathing is difficult"),
              ("disclaimer", .str "Not medical advice") ])
      ⟨"Influenza", 87, .moderate, "Viral infection", ["Rest"],
        "Seek care if breathing is difficult", "Not medical advice"⟩
      rfl⟩

/-- C7 counterexample: the code never computes a softmax—for the all-zero
model output row every `all_probabilities` value is 0.0, while the softmax
percent of that row is 100/7 per class, farther from 0 than any one-decimal
rounding could be. -/
theorem claim7_counterexample :
    all_probabilities (fun _ => 0) =
      [("akiec", 0), ("bcc", 0), ("bkl", 0), ("df", 0), ("mel", 0), ("nv", 0), ("vasc", 0)]
  ∧ softmaxPercent (fun _ => 0) 0 = 100 / 7
  ∧ ¬(|(0 : ℝ) - softmaxPercent (fun _ => 0) 0| ≤ 1 / 20) := by
  have hsm : softmaxPercent (fun _ => 0) 0 = 100 / 7 := by
    unfold softmaxPercent
    simp [Real.exp_zero]
    norm_num
  refine ⟨?_, hsm, ?_⟩
  · have : all_probabilities (fun _ => 0) =
        (List.finRange 7).map (fun i => (classAt i, (0 : ℚ))) := by
      unfold all_probabilities
      congr 1
      funext i
      rw [round1_zero]
    rw [this]
    rfl
  · rw [hsm]
    rw [abs_le]
    intro hc
    have := hc.1
    norm_num at this

/-- C7 amended: `all_probabilities` has exactly seven keys, one per class
code in CLASS_NAMES order, each value the raw model output scaled to
percent and rounded to one decimal; when the raw outputs already form a
probability distribution (sum 1, as a softmax output layer produces) the
values sum to 100 up to rounding (within 0.35). -/
theorem claim7_amended :
    ∀ v : Fin 7 → ℚ,
    ((all_probabilities v).map Prod.fst = CLASS_NAMES)
  ∧ ((all_probabilities v).length = 7)
  ∧ (∀ i : Fin 7, (classAt i, round1 (v i * 100)) ∈ all_probabilities v)
  ∧ ((∑ i, v i) = 1 →
      |((all_probabilities v).map Prod.snd).sum - 100| ≤ 7 / 20) := by
  intro v
  refine ⟨rfl, rfl, ?_, ?_⟩
  · intro i
    exact List.mem_map.mpr ⟨i, List.mem_finRange i, rfl⟩
  · intro hsum
    have hmap : ((all_probabilities v).map Prod.snd) =
        (List.finRange 7).map (fun i => round1 (v i * 100)) := by
      unfold all_probabilities
      rw [List.map_map]
      rfl
    rw [hmap, ← Fin.sum_univ_def]
    have key : |(∑ i : Fin 7, round1 (v i * 100)) - (∑ i : Fin 7, v i * 100)| ≤ 7 / 20 := by
      rw [← Finset.sum_sub_distrib]
      calc |∑ i : Fin 7, (round1 (v i * 100) - v i * 100)|
          ≤ ∑ i : Fin 7, |round1 (v i * 100) - v i * 100| :=
            Finset.abs_sum_le_sum_abs _ _
        _ ≤ ∑ _i : Fin 7, (1 : ℚ) / 20 :=
            Finset.sum_le_sum (fun i _ => abs_round1_sub _)
        _ = 7 / 20 := by
            rw [Finset.sum_const, Finset.card_univ]
            simp
            norm_num
    have h100 : (∑ i : Fin 7, v i * 100) = 100 := by
      rw [← Finset.sum_mul, hsum, one_mul]
    rw [h100] at key
    exact key

/-- C7 amended witness: a one-hot probability row. -/
theorem claim7_amended_witness :
    ((∑ i : Fin 7, (fun j : Fin 7 => if j.val = 0 then (1 : ℚ) else 0) i) = 1)
  ∧ |((all_probabilities (fun j : Fin 7 => if j.val = 0 then (1 : ℚ) else 0)).map Prod.snd).sum
       - 100| ≤ 7 / 20 := by
  have hsum : (∑ i : Fin 7, (fun j : Fin 7 => if j.val = 0 then (1 : ℚ) else 0) i) = 1 := by
    norm_num [Fin.sum_univ_succ]
    decide
  exact ⟨hsum, (claim7_amended (fun j : Fin 7 => if j.val = 0 then (1 : ℚ) else 0)).2.2.2 hsum⟩

theorem length_pos_of_ne_empty {s : String} (h : s ≠ "") : ¬(s.length < 1) := by
  intro hlt
  apply h
  have h0 : s.length = 0 := by omega
  cases s with
  | mk data =>
    cases data with
    | nil => rfl
    | cons c cs => simp [String.length] at h0

/-- C8 counterexample: with the API key absent and the singleton unset, a
request to /ai/symptoms/check is answered 400 with the ValueError message—
the missing key is detected inside the request, not at process start, and
the singleton stays unset. -/
theorem claim8_counterexample :
    symptomsRoute none none "I have a headache" none (.ok (.obj [])) .timeout .timeout
      = (.httpError 400 (.str missingKeyMsg), none) := by
  rfl

/-- C8 amended: the key check is at service-construction time, but
construction is lazy inside the handler: with the key absent, every request
to /ai/symptoms/check with non-empty symptoms is answered 400 with the
ValueError message, and the singleton remains unset, so every later request
repeats this. -/
theorem claim8_amended :
    ∀ (symptoms : String) (auth : Option String) (llm : Except String JValue)
      (sr dr : HttpResult),
    symptoms ≠ "" →
    symptomsRoute none none symptoms auth llm sr dr
      = (.httpError 400 (.str missingKeyMsg), none) := by
  intro symptoms auth llm sr dr h
  unfold symptomsRoute
  rw [if_neg (length_pos_of_ne_empty h)]
  rfl

/-- C8 amended witness: a concrete request with the key absent. -/
theorem claim8_amended_witness :
    symptomsRoute none none "persistent cough" (some "Bearer t") (.ok (.obj []))
        .timeout .timeout = (.httpError 400 (.str missingKeyMsg), none) :=
  claim8_amended "persistent cough" (some "Bearer t") (.ok (.obj [])) .timeout .timeout
    (by decide)

/-- C9 counterexample: an empty symptom text is rejected by the framework's
request validation with status 422 and a list-valued detail, not 400. -/
theorem claim9_counterexample :
    symptomsRoute (some "sk-test") none "" none (.ok (.obj [])) .timeout .timeout
      = (.httpError 422 validationDetail422, none)
  ∧ (422 : Nat) ≠ 400 :=
  ⟨rfl, by omega⟩

/-- C9 amended: an empty symptom text is rejected with 422 (the pydantic
`min_length=1` constraint, enforced by the framework before the handler
runs), while upstream model or provider failures, malformed JSON replies
included, are answered 500 with the wrapped message. -/
theorem claim9_amended :
    ∀ (envKey : Option String) (st : Option SymptomsAnalysisService)
      (auth : Option String) (llm : Except String JValue) (sr dr : HttpResult),
    ((symptomsRoute envKey st "" auth llm sr dr).1 = .httpError 422 validationDetail422)
  ∧ (∀ (k symptoms e : String), k ≠ "" → symptoms ≠ "" →
      (symptomsRoute (some k) st symptoms auth (.error e) sr dr).1
        = .httpError 500 (.str ("OpenAI API error: " ++ e))) := by
  intro envKey st auth llm sr dr
  constructor
  · unfold symptomsRoute
    rw [if_pos (by decide)]
  · intro k symptoms e hk hs
    unfold symptomsRoute
    rw [if_neg (length_pos_of_ne_empty hs)]
    have hkt : pyTruthy (some k) = true := by
      show (k != "") = true
      rw [bne_iff_ne]
      exact hk
    cases st with
    | some svc => rfl
    | none =>
      show (match get_symptoms_service (some k) none with
        | Except.error msg => (EndpointOutcome.httpError 400 (JValue.str msg), none)
        | Except.ok (svc, st') =>
          match analyze_symptoms svc symptoms (extractToken auth) (.error e) sr dr with
          | Except.error msg => (EndpointOutcome.httpError 500 (JValue.str msg), st')
          | Except.ok data =>
            (EndpointOutcome.success
                (JValue.obj
                  [("code", JValue.num 200),
                   ("message", JValue.str "Symptom analysis completed successfully"),
                   ("data", data)]),
              st')).1 = EndpointOutcome.httpError 500 (JValue.str ("OpenAI API error: " ++ e))
      unfold get_symptoms_service
      rw [if_pos hkt]
      rfl

/-- C9 amended witness: the empty request and a malformed-JSON provider
reply. -/
theorem claim9_amended_witness :
    ((symptomsRoute (some "sk-test") none "" none (.ok (.obj [])) .timeout .timeout).1
      = .httpError 422 validationDetail422)
  ∧ ((symptomsRoute (some "sk-test") none "sore throat" none
        (.error "Expecting value: line 1 column 1 (char 0)") .timeout .timeout).1
      = .httpError 500 (.str ("OpenAI API error: " ++ "Expecting value: line 1 column 1 (char 0)"))) :=
  ⟨(claim9_amended (some "sk-test") none none (.ok (.obj [])) .timeout .timeout).1,
   (claim9_amended (some "sk-test") none none (.ok (.obj [])) .timeout .timeout).2
     "sk-test" "sore throat" "Expecting value: line 1 column 1 (char 0)"
     (by decide) (by decide)⟩

/-- C10: both routes derive the token the same way: an absent header or one
not starting with "Bearer " gives no token; otherwise every occurrence of
"Bearer " is removed, not only the leading one; the header "Bearer " alone
gives the empty-string token, which both services treat exactly like no
token, skipping enrichment entirely. -/
theorem claim10_bearer_token :
    ∀ (a : String) (probs : Fin 7 → ℚ) (kb : String → Option KBEntry)
      (sr dr : HttpResult) (svc : SymptomsAnalysisService) (symptoms : String)
      (llm : Except String JValue),
    (extractToken none = none)
  ∧ (startsWithL ("Bearer ").data a.data = false → extractToken (some a) = none)
  ∧ (startsWithL ("Bearer ").data a.data = true →
      extractToken (some a) = some (replaceAllStr a "Bearer " ""))
  ∧ (extractToken (some "Bearer ") = some "")
  ∧ (formatPrediction probs kb (some "") sr dr = formatPrediction probs kb none sr dr)
  ∧ (analyze_symptoms svc symptoms (some "") llm sr dr
      = analyze_symptoms svc symptoms none llm sr dr) := by
  intro a probs kb sr dr svc symptoms llm
  refine ⟨rfl, ?_, ?_, by decide, rfl, ?_⟩
  · intro h
    show (if ((a != "") && startsWithL ("Bearer ").data a.data) = true
      then some (replaceAllStr a "Bearer " "") else none) = none
    rw [h, Bool.and_false]
    rfl
  · intro h
    have hb : startsWithL ("Bearer ").data [] = false := by decide
    have ha : a.data ≠ [] := by
      intro he
      rw [he, hb] at h
      exact Bool.false_ne_true h
    have ha2 : (a != "") = true := by
      rw [bne_iff_ne]
      intro he
      exact ha (by rw [he])
    show (if ((a != "") && startsWithL ("Bearer ").data a.data) = true
      then some (replaceAllStr a "Bearer " "") else none) = some (replaceAllStr a "Bearer " "")
    rw [ha2, h]
    rfl
  · cases llm with
    | error e => rfl
    | ok r => cases r <;> rfl

/-- C10 witness: a non-Bearer header and a header with a repeated prefix
showing that every occurrence is removed. -/
theorem claim10_witness :
    extractToken (some "Token abc") = none
  ∧ extractToken (some "Bearer Bearer abc") = some "abc" := by
  constructor
  · exact (claim10_bearer_token "Token abc" (fun _ => 0) (fun _ => none) .timeout .timeout
      ⟨"k"⟩ "s" (.ok .null)).2.1 (by decide)
  · have h := (claim10_bearer_token "Bearer Bearer abc" (fun _ => 0) (fun _ => none)
      .timeout .timeout ⟨"k"⟩ "s" (.ok .null)).2.2.1 (by decide)
    rw [h]
    decide

end DoctorMate
